import Mathlib

/-!
Verification of the report engine of PDF-Gen-TTL.

The development shallowly embeds the pure computational core of
src/services/reportService.ts (primary variant, lines 1-441):

- the totals calculator calculateTotals (lines 9-18),
- the export orchestrator filename construction generateReports (lines 20-28),
- the PDF layout constants and the dynamic (fontSize, cellPadding,
  minCellHeight) tier selection of generatePDF (lines 39-96),
- the PDF table body and synthesized totals row (lines 153-194),
- the signature-overflow fallback (lines 251-258),
- the spreadsheet grid construction and its hard-coded row indices of
  generateExcel (lines 276-441),
- the rowCount of the alternative PDF renderer in src/unnamed/part_001
  (line 71).

JavaScript numbers are modelled as exact rationals.  A quantity or price
field of a line item can hold a JS number or a string (the UI stores
whatever the input field held), so such fields are modelled by FieldVal,
and the coercion Number(v) || 0 used throughout the source is coerceNum.
-/

/--
Value stored in a numeric field of a line item, as seen by the JS
expression Number(v) || 0:
- num q: a JS number with value q,
- nan: the JS number NaN,
- strOfNum q: a string whose Number() coercion is the number q
  (for example the empty string coerces to 0),
- strNaN: a string whose Number() coercion is NaN,
- undef: a missing field (undefined), whose Number() coercion is NaN.
-/
inductive FieldVal where
  | num (q : ℚ)
  | nan
  | strOfNum (q : ℚ)
  | strNaN
  | undef
deriving DecidableEq, Repr

/--
Semantics of the JS expression Number(v) || 0: the numeric coercion of
the field, with NaN (and 0 itself) collapsed to 0.  Total by
construction: no input raises.
-/
def coerceNum : FieldVal → ℚ
  | .num q => q
  | .nan => 0
  | .strOfNum q => q
  | .strNaN => 0
  | .undef => 0

/-- Line item of the report (src/types, as used by App.tsx and the renderers). -/
structure LineItem where
  id : String
  fabricCode : String
  itemDescription : String
  color : String
  hsCode : String
  rcvdDate : String
  challanNo : String
  piNumber : String
  unit : String
  invoiceQty : FieldVal
  rcvdQty : FieldVal
  unitPrice : FieldVal
  appstremeNo : String
deriving DecidableEq, Repr

/-- Report header record (src/types). -/
structure ReportHeader where
  buyerName : String
  supplierName : String
  fileNo : String
  invoiceNo : String
  lcNumber : String
  invoiceDate : String
  billingDate : String
deriving DecidableEq, Repr

/-- Aggregate totals record (src/types). -/
structure Totals where
  totalInvoiceQty : ℚ
  totalRcvdQty : ℚ
  totalValue : ℚ
deriving DecidableEq, Repr

/-- One step of the reduce in calculateTotals (reportService.ts lines 11-15). -/
def calcStep (acc : Totals) (item : LineItem) : Totals :=
  { totalInvoiceQty := acc.totalInvoiceQty + coerceNum item.invoiceQty
    totalRcvdQty := acc.totalRcvdQty + coerceNum item.rcvdQty
    totalValue := acc.totalValue + coerceNum item.invoiceQty * coerceNum item.unitPrice }

/-- calculateTotals (reportService.ts lines 9-18): reduce over the items
starting from the all-zero accumulator. -/
def calculateTotals (items : List LineItem) : Totals :=
  items.foldl calcStep { totalInvoiceQty := 0, totalRcvdQty := 0, totalValue := 0 }

/-- Per-row line total as computed in generatePDF (reportService.ts lines
155-158): totalRowVal = invoiceQty * unitPrice after coercion. -/
def totalRowVal (item : LineItem) : ℚ :=
  coerceNum item.invoiceQty * coerceNum item.unitPrice

/-- Spec-side totals, written as the spec states them: componentwise sums
over the item collection, non-numeric fields contributing 0. -/
def specTotals (items : List LineItem) : Totals :=
  { totalInvoiceQty := (items.map (fun i => coerceNum i.invoiceQty)).sum
    totalRcvdQty := (items.map (fun i => coerceNum i.rcvdQty)).sum
    totalValue := (items.map (fun i => coerceNum i.invoiceQty * coerceNum i.unitPrice)).sum }

lemma calcFold (items : List LineItem) :
    ∀ acc : Totals,
      items.foldl calcStep acc =
        { totalInvoiceQty := acc.totalInvoiceQty + (items.map (fun i => coerceNum i.invoiceQty)).sum
          totalRcvdQty := acc.totalRcvdQty + (items.map (fun i => coerceNum i.rcvdQty)).sum
          totalValue := acc.totalValue + (items.map (fun i => coerceNum i.invoiceQty * coerceNum i.unitPrice)).sum } := by
  induction items with
  | nil => intro acc; simp
  | cons hd tl ih =>
    intro acc
    simp only [List.foldl_cons, List.map_cons, List.sum_cons, ih, calcStep]
    simp only [Totals.mk.injEq]
    refine ⟨by ring, by ring, by ring⟩

lemma calcTotals_sum (items : List LineItem) : calculateTotals items = specTotals items := by
  have h := calcFold items { totalInvoiceQty := 0, totalRcvdQty := 0, totalValue := 0 }
  simpa [calculateTotals, specTotals] using h

/-- C1: for every list of line items, calculateTotals returns a Totals
record whose totalValue is the sum of (coerced invoice quantity times
coerced unit price) over the items, whose totalInvoiceQty is the sum of
the coerced invoice quantities and whose totalRcvdQty is the sum of the
coerced received quantities, non-numeric or missing fields contributing
0 through the coercion. -/
theorem c1_calculateTotals_componentwise_sums (items : List LineItem) :
    calculateTotals items = specTotals items :=
  calcTotals_sum items

/-- C7: calculateTotals is invariant under permutation of the item list. -/
theorem c7_totals_perm_invariant (l1 l2 : List LineItem) (h : l1.Perm l2) :
    calculateTotals l1 = calculateTotals l2 := by
  rw [calcTotals_sum, calcTotals_sum]
  unfold specTotals
  simp only [Totals.mk.injEq]
  exact ⟨(h.map _).sum_eq, (h.map _).sum_eq, (h.map _).sum_eq⟩

/-- Line item with the blank defaults App.tsx creates rows with. -/
def blankItem : LineItem :=
  { id := ""
    fabricCode := ""
    itemDescription := ""
    color := ""
    hsCode := ""
    rcvdDate := ""
    challanNo := ""
    piNumber := ""
    unit := "YDS"
    invoiceQty := .num 0
    rcvdQty := .num 0
    unitPrice := .num 0
    appstremeNo := "" }

/-- Sample item: invoice quantity 10 at unit price 2.5. -/
def itemA : LineItem :=
  { blankItem with fabricCode := "A", invoiceQty := .num 10, rcvdQty := .num 9, unitPrice := .num (5/2) }

/-- Sample item: invoice quantity given as the string "3". -/
def itemB : LineItem :=
  { blankItem with fabricCode := "B", invoiceQty := .strOfNum 3, rcvdQty := .num 3, unitPrice := .num 4 }

/-- C7 witness: swapping two concrete items leaves the totals unchanged. -/
theorem c7_totals_perm_invariant_witness :
    calculateTotals [itemA, itemB] = calculateTotals [itemB, itemA] :=
  c7_totals_perm_invariant [itemA, itemB] [itemB, itemA] (List.Perm.swap itemB itemA [])

/-- JS Math.round: round to nearest integer, ties toward positive infinity. -/
def jsRound (q : ℚ) : ℤ := ⌊q + 1/2⌋

/-- Base filename built by generateReports (reportService.ts lines 21-24).
The getFilenameDate helper lives outside src/, so it is passed as a
function argument. -/
def baseFilename (header : ReportHeader) (items : List LineItem)
    (getFilenameDate : String → String) : String :=
  "Bill of Buyer " ++ header.buyerName ++ " $"
    ++ toString (jsRound (calculateTotals items).totalValue)
    ++ " DATE-" ++ getFilenameDate header.billingDate

/-- The two filenames the orchestrator saves under (reportService.ts
lines 26-27 together with the save calls at lines 273 and 440). -/
def generateReportsFilenames (header : ReportHeader) (items : List LineItem)
    (getFilenameDate : String → String) : String × String :=
  (baseFilename header items getFilenameDate ++ ".pdf",
   baseFilename header items getFilenameDate ++ ".xlsx")

/-- Header of the filename example: buyer Acme, billing date 2024-03-15. -/
def acmeHeader : ReportHeader :=
  { buyerName := "Acme", supplierName := "", fileNo := "", invoiceNo := ""
    lcNumber := "", invoiceDate := "", billingDate := "2024-03-15" }

/-- Item whose line total is 1234.5 (invoice quantity 1, unit price 1234.5). -/
def acmeItem : LineItem :=
  { blankItem with invoiceQty := .num 1, unitPrice := .num (2469/2) }

/-- C8: the orchestrator derives the shared base filename as
"Bill of Buyer (buyerName) $(rounded totalValue) DATE-(filenameDate)",
saves the PDF under that name plus ".pdf" and the spreadsheet under the
same name plus ".xlsx"; rounding is to the nearest integer, so a
totalValue of 1234.5 yields the token $1235. -/
theorem c8_base_filename (header : ReportHeader) (items : List LineItem)
    (gfd : String → String) :
    generateReportsFilenames header items gfd =
      ("Bill of Buyer " ++ header.buyerName ++ " $"
          ++ toString (jsRound (calculateTotals items).totalValue)
          ++ " DATE-" ++ gfd header.billingDate ++ ".pdf",
       "Bill of Buyer " ++ header.buyerName ++ " $"
          ++ toString (jsRound (calculateTotals items).totalValue)
          ++ " DATE-" ++ gfd header.billingDate ++ ".xlsx")
    ∧ jsRound (2469/2) = 1235
    ∧ baseFilename acmeHeader [acmeItem] gfd =
        "Bill of Buyer Acme $1235 DATE-" ++ gfd "2024-03-15" := by
  refine ⟨rfl, by norm_num [jsRound], ?_⟩
  have hv : (calculateTotals [acmeItem]).totalValue = 2469 / 2 := by
    norm_num [calculateTotals, List.foldl_cons, List.foldl_nil, calcStep,
      acmeItem, blankItem, coerceNum]
  have hr : jsRound ((2469 : ℚ) / 2) = 1235 := by norm_num [jsRound]
  unfold baseFilename
  rw [hv, hr]
  rfl

/-- rowCount of the primary PDF renderer (reportService.ts line 61):
header row + item rows + totals row. -/
def pdfRowCount (items : List LineItem) : ℕ := items.length + 2

/-- rowCount of the alternative PDF renderer (src/unnamed/part_001 line
71): item rows + totals row. -/
def pdfRowCountVariant (items : List LineItem) : ℕ := items.length + 1

-- --- PDF layout constants (reportService.ts lines 31-57) ---

/-- Page height of a landscape A4 page in mm (jsPDF format a4, landscape). -/
def pageHeightMM : ℚ := 210

/-- signatureGapSize (line 51): gap required between table and signatures. -/
def signatureGapSize : ℚ := 35

/-- signatureHeight (line 52): height reserved for the signature block. -/
def sigBlockHeight : ℚ := 20

/-- bottomMargin (line 53). -/
def bottomMargin : ℚ := 8

/-- signatureBlockY (line 54): vertical anchor of the signature block. -/
def signatureBlockY : ℚ := pageHeightMM - sigBlockHeight - bottomMargin

/-- infoBlockY (line 44). -/
def infoBlockY : ℚ := 32

/-- lineHeight (line 45). -/
def pdfLineHeight : ℚ := 5

/-- infoBlockHeight (line 46): 4 lines of details. -/
def infoBlockHeight : ℚ := pdfLineHeight * 4

/-- tableStartY (line 48). -/
def tableStartY : ℚ := infoBlockY + infoBlockHeight + 4

/-- maxTableHeight (line 57): vertical budget available to the table. -/
def maxTableHeight : ℚ := signatureBlockY - tableStartY - signatureGapSize

/-- The (fontSize, cellPadding, minCellHeight) triple the layout logic selects. -/
structure PdfLayout where
  finalFontSize : ℚ
  finalCellPadding : ℚ
  finalMinCellHeight : ℚ
deriving DecidableEq, Repr

/-- Dynamic layout tier selection of generatePDF (reportService.ts lines
63-96): four tiers keyed on rowCount at thresholds 5, 15, 25, followed by
the readability clamps finalFontSize = max 5 _ and
finalMinCellHeight = max 5 _. -/
def pdfLayoutFor (rowCount : ℕ) : PdfLayout :=
  let base : PdfLayout :=
    if rowCount ≤ 5 then
      { finalFontSize := 10, finalCellPadding := 2
        finalMinCellHeight := maxTableHeight / rowCount }
    else if rowCount ≤ 15 then
      { finalFontSize := 9, finalCellPadding := 1.75
        finalMinCellHeight := max 8 (maxTableHeight / rowCount) }
    else if rowCount ≤ 25 then
      { finalFontSize := 8, finalCellPadding := 1.5
        finalMinCellHeight := max 6 (maxTableHeight / rowCount) }
    else
      { finalFontSize := 7, finalCellPadding := 1
        finalMinCellHeight := max 5 (maxTableHeight / rowCount) }
  { base with
      finalFontSize := max 5 base.finalFontSize
      finalMinCellHeight := max 5 base.finalMinCellHeight }

/-- C3: the layout selection is a monotonic step function of rowCount:
rowCount 5 selects the largest-font tier (font 10, an upper bound over
all rowCounts), rowCount 30 selects the smallest-font tier (font 7, a
lower bound over all rowCounts), the selected minimum row height
strictly decreases across each tier boundary (5 to 6, 15 to 16, 25 to
26), and the font size never increases as rowCount grows. -/
theorem c3_layout_monotone_tiers :
    (pdfLayoutFor 5).finalFontSize = 10
    ∧ (∀ r : ℕ, (pdfLayoutFor r).finalFontSize ≤ 10)
    ∧ (pdfLayoutFor 30).finalFontSize = 7
    ∧ (∀ r : ℕ, 7 ≤ (pdfLayoutFor r).finalFontSize)
    ∧ (pdfLayoutFor 6).finalMinCellHeight < (pdfLayoutFor 5).finalMinCellHeight
    ∧ (pdfLayoutFor 16).finalMinCellHeight < (pdfLayoutFor 15).finalMinCellHeight
    ∧ (pdfLayoutFor 26).finalMinCellHeight < (pdfLayoutFor 25).finalMinCellHeight
    ∧ (∀ r1 r2 : ℕ, r1 ≤ r2 →
        (pdfLayoutFor r2).finalFontSize ≤ (pdfLayoutFor r1).finalFontSize) := by
  refine ⟨by norm_num [pdfLayoutFor, max_def], ?_,
    by norm_num [pdfLayoutFor, max_def], ?_,
    by norm_num [pdfLayoutFor, maxTableHeight, signatureBlockY, tableStartY,
      infoBlockHeight, pageHeightMM, sigBlockHeight, bottomMargin,
      signatureGapSize, infoBlockY, pdfLineHeight, max_def],
    by norm_num [pdfLayoutFor, maxTableHeight, signatureBlockY, tableStartY,
      infoBlockHeight, pageHeightMM, sigBlockHeight, bottomMargin,
      signatureGapSize, infoBlockY, pdfLineHeight, max_def],
    by norm_num [pdfLayoutFor, maxTableHeight, signatureBlockY, tableStartY,
      infoBlockHeight, pageHeightMM, sigBlockHeight, bottomMargin,
      signatureGapSize, infoBlockY, pdfLineHeight, max_def], ?_⟩
  · intro r
    dsimp only [pdfLayoutFor]
    split_ifs <;> norm_num
  · intro r
    dsimp only [pdfLayoutFor]
    split_ifs <;> norm_num
  · intro r1 r2 h
    dsimp only [pdfLayoutFor]
    split_ifs <;> first | (exfalso; omega) | norm_num

/-- C3 witness: the font monotonicity applied at rowCounts 8 and 12. -/
theorem c3_layout_monotone_tiers_witness :
    (pdfLayoutFor 12).finalFontSize ≤ (pdfLayoutFor 8).finalFontSize :=
  c3_layout_monotone_tiers.2.2.2.2.2.2.2 8 12 (by decide)

/-- Signature placement logic of generatePDF (reportService.ts lines
251-258): the pair (second page started, y position the signature lines
are drawn at).  lastTableY is the final y of the rendered table as
reported by the autoTable plugin. -/
def pdfSignaturePlacement (lastTableY : ℚ) : Bool × ℚ :=
  if signatureBlockY - 10 < lastTableY then (true, signatureBlockY)
  else (false, signatureBlockY)

/-- C5: whenever the rendered table ends below the reserved signature
area (the signature anchor minus the fixed 10 mm guard), a second page
is started and the signatures are drawn at the signature anchor of that
new page; and whenever no second page is started, the signature line
sits at least 10 mm below the table end, so it never overlaps table
content. -/
theorem c5_signature_overflow (y : ℚ) :
    (signatureBlockY - 10 < y →
      (pdfSignaturePlacement y).1 = true ∧ (pdfSignaturePlacement y).2 = signatureBlockY)
    ∧ ((pdfSignaturePlacement y).1 = false →
      y + 10 ≤ (pdfSignaturePlacement y).2 ∧ y < (pdfSignaturePlacement y).2) := by
  unfold pdfSignaturePlacement
  split_ifs with h
  · exact ⟨fun _ => ⟨rfl, rfl⟩, by simp⟩
  · refine ⟨fun hy => absurd hy h, fun _ => ⟨by linarith [not_lt.mp h], by linarith [not_lt.mp h]⟩⟩

/-- C5 witness: a table ending at y = 180 forces a second page, and a
table ending at y = 100 leaves the signatures at least 10 mm below it. -/
theorem c5_signature_overflow_witness :
    (pdfSignaturePlacement 180).1 = true ∧ 100 + 10 ≤ (pdfSignaturePlacement 100).2 :=
  ⟨((c5_signature_overflow 180).1
      (by norm_num [signatureBlockY, pageHeightMM, sigBlockHeight, bottomMargin])).1,
   ((c5_signature_overflow 100).2
      (by norm_num [pdfSignaturePlacement, signatureBlockY, pageHeightMM,
        sigBlockHeight, bottomMargin])).1⟩

-- --- PDF table body (reportService.ts lines 139-194) ---

/-- Cell of a PDF table row.  The renderer pushes raw strings, raw JS
numbers, and numbers formatted with toFixed(2); the three are kept apart
so the row faithfully records which formatting each column receives. -/
inductive PdfCell where
  | str (v : String)
  | numv (v : ℚ)
  | fixed2 (v : ℚ)
deriving DecidableEq, Repr

/-- JS truthiness of the guard s && s.trim(): both the string and its
trim are non-empty. -/
def hasContent (s : String) : Bool := (s != "") && (s.trim != "")

/-- Description cell construction (reportService.ts lines 161-168):
the item description, with Color and H.S Code appended on a second line
when present. -/
def buildDescription (item : LineItem) : String :=
  let details : List String :=
    (if hasContent item.color then ["Color: " ++ item.color] else []) ++
    (if hasContent item.hsCode then ["H.S Code: " ++ item.hsCode] else [])
  if details.length > 0 then
    item.itemDescription ++ "\n" ++ String.intercalate ", " details
  else item.itemDescription

/-- One PDF table row per item (reportService.ts lines 153-183). -/
def pdfItemRow (item : LineItem) : List PdfCell :=
  [ .str item.fabricCode,
    .str (buildDescription item),
    .str item.rcvdDate,
    .str item.challanNo,
    .str item.piNumber,
    .str item.unit,
    .numv (coerceNum item.invoiceQty),
    .numv (coerceNum item.rcvdQty),
    .fixed2 (coerceNum item.unitPrice),
    .fixed2 (totalRowVal item),
    .str item.appstremeNo ]

/-- Synthesized PDF totals row (reportService.ts lines 186-193). -/
def pdfFooterRow (totals : Totals) : List PdfCell :=
  [ .str "", .str "", .str "", .str "", .str "", .str "TOTAL:",
    .fixed2 totals.totalInvoiceQty, .fixed2 totals.totalRcvdQty,
    .str "", .fixed2 totals.totalValue, .str "" ]

/-- The PDF table body: one row per item, then the totals row
(reportService.ts line 194). -/
def pdfTableRows (items : List LineItem) (totals : Totals) : List (List PdfCell) :=
  items.map pdfItemRow ++ [pdfFooterRow totals]

/-- C4 counterexample: the primary PDF renderer computes rowCount 3 for a
one-item list, not items.length + 1 = 2 as the claim states. -/
theorem c4_rowcount_counterexample :
    pdfRowCount [blankItem] ≠ [blankItem].length + 1 := by
  decide

/-- C4 amended: the primary PDF renderer (reportService.ts line 61)
computes rowCount = items.length + 2, counting the header row, the data
rows and the synthesized totals row (one more than the body row count);
the variant renderer in src/unnamed/part_001 line 71 is the one that
computes items.length + 1, the body row count. -/
theorem c4_rowcount_amended (items : List LineItem) :
    pdfRowCount items = items.length + 2
    ∧ pdfRowCount items = (pdfTableRows items (calculateTotals items)).length + 1
    ∧ pdfRowCountVariant items = items.length + 1
    ∧ pdfRowCountVariant items = (pdfTableRows items (calculateTotals items)).length := by
  refine ⟨rfl, ?_, rfl, ?_⟩ <;>
    simp [pdfRowCount, pdfRowCountVariant, pdfTableRows]

/-- C9 counterexample: in the synthesized PDF totals row, the unit column
(index 5) holds the literal label TOTAL:, not a blank cell, so not every
column outside the summed quantity and value columns is blank. -/
theorem c9_totals_row_counterexample :
    (pdfFooterRow (calculateTotals [blankItem]))[5]? = some (PdfCell.str "TOTAL:")
    ∧ (pdfFooterRow (calculateTotals [blankItem]))[5]? ≠ some (PdfCell.str "") := by
  have h : (pdfFooterRow (calculateTotals [blankItem]))[5]? = some (PdfCell.str "TOTAL:") := rfl
  refine ⟨h, ?_⟩
  rw [h]
  simp

/-- C9 amended: the synthesized totals row follows the per-item rows and
carries the summed invoice quantity, received quantity and total value in
the invoice-quantity, received-quantity and total-value columns (indices
6, 7 and 9); every other column of that row is blank except the unit
column (index 5), which holds the literal label TOTAL:. -/
theorem c9_totals_row_layout (items : List LineItem) :
    pdfTableRows items (calculateTotals items) =
      items.map pdfItemRow ++ [pdfFooterRow (calculateTotals items)]
    ∧ (pdfTableRows items (calculateTotals items))[items.length]? =
        some (pdfFooterRow (calculateTotals items))
    ∧ pdfFooterRow (calculateTotals items) =
        [ .str "", .str "", .str "", .str "", .str "", .str "TOTAL:",
          .fixed2 ((items.map (fun i => coerceNum i.invoiceQty)).sum),
          .fixed2 ((items.map (fun i => coerceNum i.rcvdQty)).sum),
          .str "",
          .fixed2 ((items.map totalRowVal).sum),
          .str "" ] := by
  refine ⟨rfl, ?_, ?_⟩
  · unfold pdfTableRows
    rw [List.getElem?_append_right (by simp)]
    simp
  · rw [calcTotals_sum]
    rfl

/-- A field value whose JS Number() coercion is NaN. -/
def nonNumeric : FieldVal → Bool
  | .nan => true
  | .strNaN => true
  | .undef => true
  | _ => false

/-- The spec example item: invoiceQty is the empty string (which Number()
coerces to 0) and unitPrice is the number 5. -/
def emptyQtyItem : LineItem :=
  { blankItem with invoiceQty := .strOfNum 0, unitPrice := .num 5 }

/-- C6: numeric coercion never raises: coerceNum is a total function and
maps every non-numeric value to 0, a row whose invoice quantity is
non-numeric has line total 0, each item contributes exactly its line
total to totalValue, and the item with invoiceQty the empty string and
unitPrice 5 has line total 0 and contributes 0 to totalValue. -/
theorem c6_coercion_never_fails :
    (∀ v : FieldVal, nonNumeric v = true → coerceNum v = 0)
    ∧ (∀ item : LineItem, nonNumeric item.invoiceQty = true → totalRowVal item = 0)
    ∧ (∀ (items : List LineItem) (item : LineItem),
        (calculateTotals (item :: items)).totalValue =
          totalRowVal item + (calculateTotals items).totalValue)
    ∧ totalRowVal emptyQtyItem = 0
    ∧ (calculateTotals [emptyQtyItem]).totalValue = 0 := by
  refine ⟨?_, ?_, ?_, ?_, ?_⟩
  · intro v hv
    cases v <;> simp_all [nonNumeric, coerceNum]
  · intro item h
    unfold totalRowVal
    cases hq : item.invoiceQty <;> simp_all [nonNumeric, coerceNum]
  · intro items item
    rw [calcTotals_sum, calcTotals_sum]
    simp [specTotals, totalRowVal]
  · norm_num [totalRowVal, emptyQtyItem, blankItem, coerceNum]
  · norm_num [calculateTotals, List.foldl_cons, List.foldl_nil, calcStep,
      emptyQtyItem, blankItem, coerceNum]

/-- C6 witness: a NaN-string invoice quantity coerces to 0 and yields a
zero line total even with unit price 5. -/
theorem c6_coercion_never_fails_witness :
    coerceNum FieldVal.strNaN = 0
    ∧ totalRowVal { blankItem with invoiceQty := FieldVal.strNaN, unitPrice := FieldVal.num 5 } = 0 :=
  ⟨c6_coercion_never_fails.1 .strNaN rfl,
   c6_coercion_never_fails.2.1
     { blankItem with invoiceQty := FieldVal.strNaN, unitPrice := FieldVal.num 5 } rfl⟩

-- --- Spreadsheet grid (reportService.ts lines 276-441) ---

/-- Cell of the aoa grid handed to the spreadsheet library: a string, a
JS number, or the null placeholder used in the info rows. -/
inductive ExcelCell where
  | s (v : String)
  | n (v : ℚ)
  | nullc
deriving DecidableEq, Repr

/-- Per-row line total as computed in generateExcel (reportService.ts
lines 281-284). -/
def excelRowTotalVal (item : LineItem) : ℚ :=
  coerceNum item.invoiceQty * coerceNum item.unitPrice

/-- One spreadsheet data row per item (reportService.ts lines 280-297). -/
def excelItemRow (item : LineItem) : List ExcelCell :=
  [ .s item.fabricCode,
    .s (buildDescription item),
    .s item.rcvdDate,
    .s item.challanNo,
    .s item.piNumber,
    .s item.unit,
    .n (coerceNum item.invoiceQty),
    .n (coerceNum item.rcvdQty),
    .n (coerceNum item.unitPrice),
    .n (excelRowTotalVal item),
    .s item.appstremeNo ]

/-- The fixed table header labels (reportService.ts lines 311-314, row 10). -/
def excelHeaderRow : List ExcelCell :=
  [ .s "Fabric Code", .s "Item Description", .s "Rcvd Date", .s "Challan No",
    .s "Pi Number", .s "Unit", .s "Invoice Qty", .s "Rcvd Qty",
    .s "Unit Price $", .s "Total Value", .s "Appstreme No.\n(Receipt no)" ]

/-- The eleven fixed top rows of wsData (reportService.ts lines 299-315):
three title rows, a spacer, five info rows, a spacer, and the table
header row at index 10. -/
def excelTopRows (header : ReportHeader) : List (List ExcelCell) :=
  [ [ .s "Tusuka Trousers Ltd." ],
    [ .s "Neelngar, Konabari, Gazipur" ],
    [ .s "Inventory Report" ],
    [],
    [ .s "Buyer Name :", .s header.buyerName, .nullc, .nullc, .nullc, .nullc, .nullc,
      .s "Invoice Date :", .s header.invoiceDate ],
    [ .s "Supplier Name:", .s header.supplierName, .nullc, .nullc, .nullc, .nullc, .nullc,
      .s "Billing Date :", .s header.billingDate ],
    [ .s "File No :", .s header.fileNo ],
    [ .s "Invoice No :", .s header.invoiceNo ],
    [ .s "L/C Number :", .s header.lcNumber ],
    [],
    excelHeaderRow ]

/-- The spreadsheet footer row (reportService.ts lines 321-324). -/
def excelFooterRow (totals : Totals) : List ExcelCell :=
  [ .s "", .s "", .s "", .s "", .s "Total:", .s "YDS",
    .n totals.totalInvoiceQty, .n totals.totalRcvdQty, .s "",
    .n totals.totalValue, .s "" ]

/-- The signature row (reportService.ts lines 333-336): an 11-wide blank
row with Prepared By at column 1 and Store In-Charge at column 9. -/
def excelSigRow : List ExcelCell :=
  [ .s "", .s "Prepared By", .s "", .s "", .s "", .s "", .s "", .s "",
    .s "", .s "Store In-Charge", .s "" ]

/-- The whole wsData grid (reportService.ts lines 299-337): fixed top
rows, item rows, footer row, four blank spacer rows, signature row. -/
def wsData (header : ReportHeader) (items : List LineItem) (totals : Totals) :
    List (List ExcelCell) :=
  excelTopRows header ++ items.map excelItemRow ++ [excelFooterRow totals]
    ++ [[], [], [], []] ++ [excelSigRow]

/-- headerRowIndex (reportService.ts line 384). -/
def headerRowIndex : ℕ := 10

/-- startDataRow (reportService.ts line 390). -/
def startDataRow : ℕ := 11

/-- footerRowIndex (reportService.ts lines 391 and 404):
endDataRow + 1 = (startDataRow + items.length - 1) + 1. -/
def footerRowIndex (items : List LineItem) : ℕ := startDataRow + items.length

/-- sigRowIndex (reportService.ts line 333): the length of wsData just
before the signature row is pushed, 11 + N + 1 + 4. -/
def sigRowIndex (items : List LineItem) : ℕ := 16 + items.length

lemma getElem?_append_length {α : Type} (l rest : List α) (x : α) :
    (l ++ (x :: rest))[l.length]? = some x := by
  rw [List.getElem?_append_right (le_refl _)]
  simp

/-- C2: in the spreadsheet grid, the table header row sits at the fixed
index 10 whatever the number N of items, the totals row sits at
headerRowIndex + N + 1, and the signature row is the last row of the
grid. -/
theorem c2_excel_row_invariants (header : ReportHeader) (items : List LineItem)
    (totals : Totals) :
    (wsData header items totals)[headerRowIndex]? = some excelHeaderRow
    ∧ footerRowIndex items = headerRowIndex + items.length + 1
    ∧ (wsData header items totals)[footerRowIndex items]? = some (excelFooterRow totals)
    ∧ sigRowIndex items + 1 = (wsData header items totals).length
    ∧ (wsData header items totals)[sigRowIndex items]? = some excelSigRow := by
  have hgrid : wsData header items totals =
      (excelTopRows header ++ items.map excelItemRow)
        ++ (excelFooterRow totals :: ([[], [], [], []] ++ [excelSigRow])) := by
    simp [wsData]
  have hgridSig : wsData header items totals =
      (excelTopRows header ++ items.map excelItemRow ++ [excelFooterRow totals]
        ++ [[], [], [], []]) ++ (excelSigRow :: []) := by
    simp [wsData]
  have hlenTop : (excelTopRows header).length = 11 := by
    simp [excelTopRows]
  have hgrid0 : wsData header items totals =
      excelTopRows header ++ (items.map excelItemRow ++ [excelFooterRow totals]
        ++ [[], [], [], []] ++ [excelSigRow]) := by
    simp [wsData]
  refine ⟨?_, ?_, ?_, ?_, ?_⟩
  · rw [hgrid0, List.getElem?_append, if_pos (by rw [hlenTop]; norm_num [headerRowIndex])]
    rfl
  · simp only [footerRowIndex, startDataRow, headerRowIndex]
    omega
  · have hidx : footerRowIndex items = (excelTopRows header ++ items.map excelItemRow).length := by
      simp only [List.length_append, List.length_map, hlenTop, footerRowIndex, startDataRow]
    rw [hgrid, hidx]
    exact getElem?_append_length _ _ _
  · rw [hgridSig]
    simp only [List.length_append, List.length_map, List.length_cons, List.length_nil, hlenTop,
      sigRowIndex]
    omega
  · have hidx : sigRowIndex items =
        (excelTopRows header ++ items.map excelItemRow ++ [excelFooterRow totals]
          ++ [[], [], [], []]).length := by
      simp only [List.length_append, List.length_map, List.length_cons, List.length_nil, hlenTop,
        sigRowIndex]
      omega
    rw [hgridSig, hidx]
    exact getElem?_append_length _ _ _

/-- C10: the per-row line total written into the PDF row and the one
written into the spreadsheet row are the same value, coerced invoice
quantity times coerced unit price, placed at column index 9 of each row;
and totalValue of calculateTotals is exactly the sum of these per-row
line totals. -/
theorem c10_row_value_agreement (item : LineItem) (items : List LineItem) :
    totalRowVal item = excelRowTotalVal item
    ∧ (pdfItemRow item)[9]? = some (PdfCell.fixed2 (totalRowVal item))
    ∧ (excelItemRow item)[9]? = some (ExcelCell.n (excelRowTotalVal item))
    ∧ (calculateTotals items).totalValue = (items.map totalRowVal).sum := by
  refine ⟨rfl, rfl, rfl, ?_⟩
  rw [calcTotals_sum]
  rfl
